/-
Verification of the data-access layer of the personal project tracker
(`app.py`): credential store, tag registry, project store and note store,
modelled as pure state-passing functions over an explicit relational
datastore value.

The embedding follows the source:
  * SQLite rows become Lean structures; the four tables become lists held
    in a `DB` record, in rowid (insertion) order, which is the order
    `SELECT ... WHERE` scans them.
  * `INTEGER PRIMARY KEY` id assignment is modelled by an explicit
    per-table next-id counter.
  * SQL `NULL` and dynamically-typed Python values flowing into project
    columns are modelled by the `Val` type.
  * `hashlib.sha256(password.encode()).hexdigest()` is embedded as a full
    SHA-256 over the UTF-8 bytes of the password, using `Nat` arithmetic
    with explicit 32-bit reduction.
  * The source never executes `PRAGMA foreign_keys = ON`, so the
    `ON DELETE CASCADE` declared on `notes.project_id` is not enforced by
    the sqlite3 driver (foreign-key enforcement is off by default):
    `delete_project` therefore leaves the notes table untouched, exactly
    as in the model below.
-/
import Mathlib

namespace ProjectTracker

/-! ## SHA-256 (`hashlib.sha256`), over `Nat` with explicit 32-bit reduction -/

/-- Reduce to a 32-bit word. -/
def w32 (n : Nat) : Nat := n % 4294967296

/-- 32-bit right rotation (argument assumed `< 2^32`). -/
def rotr (x n : Nat) : Nat := w32 ((x >>> n) ||| (x <<< (32 - n)))

def bigS0 (x : Nat) : Nat := rotr x 2 ^^^ rotr x 13 ^^^ rotr x 22

def bigS1 (x : Nat) : Nat := rotr x 6 ^^^ rotr x 11 ^^^ rotr x 25

def smS0 (x : Nat) : Nat := rotr x 7 ^^^ rotr x 18 ^^^ (x >>> 3)

def smS1 (x : Nat) : Nat := rotr x 17 ^^^ rotr x 19 ^^^ (x >>> 10)

def chF (x y z : Nat) : Nat := (x &&& y) ^^^ ((4294967295 ^^^ x) &&& z)

def majF (x y z : Nat) : Nat := (x &&& y) ^^^ (x &&& z) ^^^ (y &&& z)

/-- The 64 SHA-256 round constants (FIPS 180-4), written in decimal. -/
def K256 : List Nat :=
  [1116352408, 1899447441, 3049323471, 3921009573,
   961987163, 1508970993, 2453635748, 2870763221,
   3624381080, 310598401, 607225278, 1426881987,
   1925078388, 2162078206, 2614888103, 3248222580,
   3835390401, 4022224774, 264347078, 604807628,
   770255983, 1249150122, 1555081692, 1996064986,
   2554220882, 2821834349, 2952996808, 3210313671,
   3336571891, 3584528711, 113926993, 338241895,
   666307205, 773529912, 1294757372, 1396182291,
   1695183700, 1986661051, 2177026350, 2456956037,
   2730485921, 2820302411, 3259730800, 3345764771,
   3516065817, 3600352804, 4094571909, 275423344,
   430227734, 506948616, 659060556, 883997877,
   958139571, 1322822218, 1537002063, 1747873779,
   1955562222, 2024104815, 2227730452, 2361852424,
   2428436474, 2756734187, 3204031479, 3329325298]

/-- Working state of the compression function. -/
structure Hash8 where
  a : Nat
  b : Nat
  c : Nat
  d : Nat
  e : Nat
  f : Nat
  g : Nat
  h : Nat
  deriving Repr, DecidableEq

def sha256init : Hash8 :=
  ⟨1779033703, 3144134277, 1013904242, 2773480762,
   1359893119, 2600822924, 528734635, 1541459225⟩

/-- One compression round, fed a `(Kᵢ, Wᵢ)` pair. -/
def compressStep (st : Hash8) (kw : Nat × Nat) : Hash8 :=
  let t1 := w32 (st.h + bigS1 st.e + chF st.e st.f st.g + kw.1 + kw.2)
  let t2 := w32 (bigS0 st.a + majF st.a st.b st.c)
  ⟨w32 (t1 + t2), st.a, st.b, st.c, w32 (st.d + t1), st.e, st.f, st.g⟩

/-- Extend the 16 block words to 64; `acc` holds the words produced so far,
most recent first. -/
def extendWords : Nat → List Nat → List Nat
  | 0, acc => acc
  | n + 1, acc =>
      let get := fun k => acc.getD k 0
      let w := w32 (get 15 + smS0 (get 14) + get 6 + smS1 (get 1))
      extendWords n (w :: acc)

/-- Big-endian 4-byte groups to 32-bit words. -/
def toWordsBE : List Nat → List Nat
  | b0 :: b1 :: b2 :: b3 :: rest =>
      ((b0 <<< 24) ||| (b1 <<< 16) ||| (b2 <<< 8) ||| b3) :: toWordsBE rest
  | _ => []

def addH (x y : Hash8) : Hash8 :=
  ⟨w32 (x.a + y.a), w32 (x.b + y.b), w32 (x.c + y.c), w32 (x.d + y.d),
   w32 (x.e + y.e), w32 (x.f + y.f), w32 (x.g + y.g), w32 (x.h + y.h)⟩

/-- Process one 64-byte block. -/
def processBlock (st : Hash8) (block : List Nat) : Hash8 :=
  let w16 := toWordsBE block
  let w := (extendWords 48 w16.reverse).reverse
  addH st ((K256.zip w).foldl compressStep st)

/-- Consume the padded byte stream (whose length is a multiple of 64),
compressing each full 64-byte block as it completes. -/
def sha256loop : Hash8 → List Nat → List Nat → Hash8
  | st, _, [] => st
  | st, buf, b :: rest =>
      let buf1 := buf ++ [b]
      if buf1.length = 64 then sha256loop (processBlock st buf1) [] rest
      else sha256loop st buf1 rest

/-- Big-endian 8-byte encoding of the message bit length. -/
def lenBytesBE (n : Nat) : List Nat :=
  [(n >>> 56) % 256, (n >>> 48) % 256, (n >>> 40) % 256, (n >>> 32) % 256,
   (n >>> 24) % 256, (n >>> 16) % 256, (n >>> 8) % 256, n % 256]

/-- SHA-256 padding: append `0x80`, zeros to 56 mod 64, then the bit length. -/
def sha256pad (msg : List Nat) : List Nat :=
  let padZeros := (119 - msg.length % 64) % 64
  msg ++ 0x80 :: List.replicate padZeros 0 ++ lenBytesBE (msg.length * 8)

/-- SHA-256 of a byte list, as the 8-word final state. -/
def sha256 (msg : List Nat) : Hash8 :=
  sha256loop sha256init [] (sha256pad msg)

/-- Lowercase hex digit, as produced by Python's `hexdigest()`. -/
def hexDigit (n : Nat) : Char :=
  if n < 10 then Char.ofNat (48 + n) else Char.ofNat (87 + n)

/-- 8 lowercase hex characters of one 32-bit word. -/
def hex8 (w : Nat) : List Char :=
  [hexDigit ((w >>> 28) % 16), hexDigit ((w >>> 24) % 16),
   hexDigit ((w >>> 20) % 16), hexDigit ((w >>> 16) % 16),
   hexDigit ((w >>> 12) % 16), hexDigit ((w >>> 8) % 16),
   hexDigit ((w >>> 4) % 16), hexDigit (w % 16)]

/-- Hex digest string of a hash state, as `hexdigest()` returns it. -/
def hexDigest (st : Hash8) : String :=
  ⟨hex8 st.a ++ hex8 st.b ++ hex8 st.c ++ hex8 st.d ++
   hex8 st.e ++ hex8 st.f ++ hex8 st.g ++ hex8 st.h⟩

/-- UTF-8 bytes of one Unicode code point (Python `str.encode()`). -/
def utf8Char (c : Nat) : List Nat :=
  if c < 0x80 then [c]
  else if c < 0x800 then
    [0xC0 ||| (c >>> 6), 0x80 ||| (c &&& 0x3F)]
  else if c < 0x10000 then
    [0xE0 ||| (c >>> 12), 0x80 ||| ((c >>> 6) &&& 0x3F), 0x80 ||| (c &&& 0x3F)]
  else
    [0xF0 ||| (c >>> 18), 0x80 ||| ((c >>> 12) &&& 0x3F),
     0x80 ||| ((c >>> 6) &&& 0x3F), 0x80 ||| (c &&& 0x3F)]

/-- UTF-8 bytes of a string (`password.encode()`). -/
def strBytes (s : String) : List Nat :=
  (s.data.map (fun ch => utf8Char ch.toNat)).flatten

/-- `hash_password` from `app.py`:
`hashlib.sha256(password.encode()).hexdigest()` — a single unsalted round
of SHA-256, returned as a lowercase hex string. -/
def hash_password (password : String) : String :=
  hexDigest (sha256 (strBytes password))

/-- `verify_password` from `app.py`: string equality of the stored value
against a fresh hash of the provided password. -/
def verify_password (stored_password provided_password : String) : Bool :=
  stored_password = hash_password provided_password

/-! ## Data model

SQLite values reaching the dynamically-typed project columns are either
`NULL`, integers (Python bools are stored as 0/1) or text. -/

inductive Val where
  | null : Val
  | int : Int → Val
  | text : String → Val
  deriving Repr, DecidableEq

/-- Python truthiness of a value coming from a row or a keyword argument:
`None`, `0` and `""` are falsy. -/
def truthy : Val → Bool
  | .null => false
  | .int i => decide (i ≠ 0)
  | .text s => decide (s ≠ "")

/-- A row of the `users` table. -/
structure User where
  id : Nat
  username : String
  password : String
  created_at : String
  deriving Repr, DecidableEq

/-- A row of the `projects` table. -/
structure Project where
  id : Nat
  title : Val
  description : Val
  tag_name : Val
  tag_color : Val
  priority : Val
  completed : Val
  created_at : Val
  updated_at : Val
  deriving Repr, DecidableEq

/-- A row of the `notes` table. -/
structure Note where
  id : Nat
  project_id : Nat
  content : String
  created_at : String
  deriving Repr, DecidableEq

/-- A row of the `tags` table.  Note the schema declares `name TEXT NOT
NULL` with no `UNIQUE` constraint. -/
structure Tag where
  id : Nat
  name : String
  color : String
  count : Int
  deriving Repr, DecidableEq

/-- The datastore: the four tables in rowid (insertion) order, plus the
next rowid each table will assign. -/
structure DB where
  users : List User
  projects : List Project
  notes : List Note
  tags : List Tag
  nextUserId : Nat
  nextProjectId : Nat
  nextNoteId : Nat
  nextTagId : Nat
  deriving Repr, DecidableEq

/-- `SELECT * FROM users WHERE username = ? ... fetchone()`. -/
def findUser (db : DB) (username : String) : Option User :=
  db.users.find? (fun u => decide (u.username = username))

/-- `SELECT * FROM projects WHERE id = ? ... fetchone()`. -/
def findProject (db : DB) (project_id : Nat) : Option Project :=
  db.projects.find? (fun p => decide (p.id = project_id))

/-- `SELECT * FROM notes WHERE id = ? ... fetchone()`. -/
def findNote (db : DB) (note_id : Nat) : Option Note :=
  db.notes.find? (fun n => decide (n.id = note_id))

/-! ## Credential store -/

/-- `authenticate_user` from `app.py`: look the username up, then compare
the stored hash against a fresh hash of the provided password. -/
def authenticate_user (db : DB) (username password : String) : Option User :=
  match findUser db username with
  | some user => if verify_password user.password password then some user else none
  | none => none

/-- `register_user` from `app.py`.  The four validation failures return the
source's error strings; on success the new row (with the hashed password
and the `CURRENT_TIMESTAMP` default `now`) is inserted and returned. -/
def register_user (db : DB) (now : String) (username password : String) :
    Except String User × DB :=
  if username = "" ∨ password = "" then
    (.error "Username and password are required", db)
  else if password.length < 8 then
    (.error "Password must be at least 8 characters long", db)
  else if ¬ (password.data.any (fun c => decide ('A' ≤ c ∧ c ≤ 'Z')) ∧
             password.data.any (fun c => decide ('a' ≤ c ∧ c ≤ 'z')) ∧
             password.data.any (fun c => decide ('0' ≤ c ∧ c ≤ '9'))) then
    (.error "Password must contain upper and lowercase letters and at least one number", db)
  else
    match findUser db username with
    | some _ => (.error "Username already exists", db)
    | none =>
        let user : User :=
          ⟨db.nextUserId, username, hash_password password, now⟩
        (.ok user,
         { db with users := db.users ++ [user], nextUserId := db.nextUserId + 1 })

/-! ## Tag registry -/

/-- `UPDATE tags SET count = count + 1 WHERE name = ?`, where the bound
parameter is the Python value `v`: a text row name matches `v` exactly when
`v` is that text. -/
def incTags (tags : List Tag) (v : Val) : List Tag :=
  tags.map (fun t => if Val.text t.name = v then { t with count := t.count + 1 } else t)

/-- `UPDATE tags SET count = MAX(0, count - 1) WHERE name = ?`. -/
def decTags (tags : List Tag) (v : Val) : List Tag :=
  tags.map (fun t => if Val.text t.name = v then { t with count := max 0 (t.count - 1) } else t)

/-- `create_tag` from `app.py`: an unconditional `INSERT` — the schema has
no uniqueness constraint on `name` and the function performs no duplicate
check, so it never fails on an existing name. -/
def create_tag (db : DB) (name color : String) : Tag × DB :=
  let tag : Tag := ⟨db.nextTagId, name, color, 0⟩
  (tag, { db with tags := db.tags ++ [tag], nextTagId := db.nextTagId + 1 })

/-! ## Project store -/

/-- `create_project` from `app.py`: insert the row with
`created_at = updated_at = now` and `completed` left at its schema default
`0`; if `tag_name` is truthy, increment every tag row of that name. -/
def create_project (db : DB) (title description tag_name tag_color priority : Val)
    (now : String) : Project × DB :=
  let p : Project :=
    ⟨db.nextProjectId, title, description, tag_name, tag_color, priority,
     Val.int 0, Val.text now, Val.text now⟩
  let tags1 := if truthy tag_name then incTags db.tags tag_name else db.tags
  (p, { db with projects := db.projects ++ [p], tags := tags1,
                nextProjectId := db.nextProjectId + 1 })

/-- The update keys `update_project` recognizes; anything else in `kwargs`
is skipped without error. -/
def recognizedKeys : List String :=
  ["title", "description", "tag_name", "tag_color", "priority", "completed"]

/-- Set one recognized column of a project row. -/
def setField (p : Project) (k : String) (v : Val) : Project :=
  if k = "title" then { p with title := v }
  else if k = "description" then { p with description := v }
  else if k = "tag_name" then { p with tag_name := v }
  else if k = "tag_color" then { p with tag_color := v }
  else if k = "priority" then { p with priority := v }
  else if k = "completed" then { p with completed := v }
  else p

/-- The `SET` clause built from `kwargs`: each recognized key is applied in
order, unrecognized keys are filtered out. -/
def applyKwargs : Project → List (String × Val) → Project
  | p, [] => p
  | p, kv :: rest =>
      applyKwargs (if kv.1 ∈ recognizedKeys then setField p kv.1 kv.2 else p) rest

/-- Python `kwargs.get(k)`: `None` both when the key is absent and when it
was passed explicitly as `None`. -/
def pyGet (kwargs : List (String × Val)) (k : String) : Val :=
  match kwargs.lookup k with
  | some v => v
  | none => Val.null

/-- `update_project` from `app.py`.  Reads the current `tag_name` (null
when the project does not exist), applies the recognized `kwargs` fields
plus `updated_at = now` to the matching row, then — whenever the old tag
value differs from `kwargs.get('tag_name')` — decrements the old tag (if
truthy) and increments the new tag (if truthy), and finally re-reads the
row.  Note the count adjustment keys off `kwargs.get`, which cannot tell
"key absent" from "key present and None". -/
def update_project (db : DB) (project_id : Nat) (kwargs : List (String × Val))
    (now : String) : Option Project × DB :=
  let old_tag : Val :=
    match findProject db project_id with
    | some p => p.tag_name
    | none => Val.null
  let projects1 := db.projects.map
    (fun p => if p.id = project_id
              then { applyKwargs p kwargs with updated_at := Val.text now }
              else p)
  let new_tag := pyGet kwargs "tag_name"
  let tags1 :=
    if old_tag ≠ new_tag then
      let t1 := if truthy old_tag then decTags db.tags old_tag else db.tags
      if truthy new_tag then incTags t1 new_tag else t1
    else db.tags
  let db1 : DB := { db with projects := projects1, tags := tags1 }
  (findProject db1 project_id, db1)

/-- `mark_project_complete` from `app.py`: `update_project(project_id,
completed=completed)` — the Python bool is stored as the integer 0/1. -/
def mark_project_complete (db : DB) (project_id : Nat) (completed : Bool)
    (now : String) : Option Project × DB :=
  update_project db project_id [("completed", Val.int (if completed then 1 else 0))] now

/-- `delete_project` from `app.py`: delete the matching project row and, if
the row existed with a truthy `tag_name`, decrement that tag (floored at
0); always returns `True` on the non-exceptional path.  The notes table is
untouched: the source issues no `DELETE FROM notes` and never enables
sqlite3 foreign-key enforcement, so the declared `ON DELETE CASCADE` does
not fire. -/
def delete_project (db : DB) (project_id : Nat) : Bool × DB :=
  let proj := findProject db project_id
  let projects1 := db.projects.filter (fun p => decide (¬ p.id = project_id))
  let tags1 :=
    match proj with
    | some p => if truthy p.tag_name then decTags db.tags p.tag_name else db.tags
    | none => db.tags
  (true, { db with projects := projects1, tags := tags1 })

/-! ## Note store -/

/-- `create_note` from `app.py`: unconditionally insert the note (there is
no blank-content validation in this function) and set the parent project's
`updated_at` to the same `now`. -/
def create_note (db : DB) (project_id : Nat) (content : String) (now : String) :
    Note × DB :=
  let n : Note := ⟨db.nextNoteId, project_id, content, now⟩
  let projects1 := db.projects.map
    (fun p => if p.id = project_id then { p with updated_at := Val.text now } else p)
  (n, { db with notes := db.notes ++ [n], projects := projects1
                nextNoteId := db.nextNoteId + 1 })

/-- `update_note` from `app.py`: `None` (store untouched) when the note is
unknown; otherwise rewrite its content, touch the parent project's
`updated_at`, and return the re-read note. -/
def update_note (db : DB) (note_id : Nat) (content : String) (now : String) :
    Option Note × DB :=
  match findNote db note_id with
  | none => (none, db)
  | some note =>
      let notes1 := db.notes.map
        (fun m => if m.id = note_id then { m with content := content } else m)
      let projects1 := db.projects.map
        (fun p => if p.id = note.project_id then { p with updated_at := Val.text now } else p)
      let db1 : DB := { db with notes := notes1, projects := projects1 }
      (findNote db1 note_id, db1)

/-- `delete_note` from `app.py`: `False` (store untouched) when the note is
unknown; otherwise delete it and touch the parent project's `updated_at`. -/
def delete_note (db : DB) (note_id : Nat) (now : String) : Bool × DB :=
  match findNote db note_id with
  | none => (false, db)
  | some note =>
      let notes1 := db.notes.filter (fun m => decide (¬ m.id = note_id))
      let projects1 := db.projects.map
        (fun p => if p.id = note.project_id then { p with updated_at := Val.text now } else p)
      (true, { db with notes := notes1, projects := projects1 })

/-! ## Derived quantities for the `Tag.count` invariant -/

/-- The stored counter of the first tag row named `n`. -/
def tagCountByName (db : DB) (n : String) : Option Int :=
  (db.tags.find? (fun t => decide (t.name = n))).map (fun t => t.count)

/-- The number of project rows whose `tag_name` equals the tag name `n` —
the value the spec says every committed operation must keep `Tag.count`
equal to. -/
def referencingCount (db : DB) (n : String) : Nat :=
  (db.projects.filter (fun p => decide (p.tag_name = Val.text n))).length


/-! ## Concrete scenarios

A small datastore matching `init_db`'s seeded shape: two of the default
tags ("Work" at count 0 and "Personal" at count 5) and empty tables
otherwise. -/

def dbW : DB :=
  ⟨[], [], [], [⟨1, "Work", "#0ea5e9", 0⟩, ⟨2, "Personal", "#f59e0b", 5⟩], 1, 1, 1, 3⟩

/-- The empty datastore. -/
def dbEmpty : DB := ⟨[], [], [], [], 1, 1, 1, 1⟩

/-- A project tagged "Work" created in `dbW`: "Work" is incremented to 1. -/
def c1_db1 : DB :=
  (create_project dbW (.text "Website redesign") .null (.text "Work")
    (.text "#0ea5e9") (.text "medium") "2024-01-01 10:00:00").2

/-- `mark_project_complete` on that project: a partial update that does not
pass `tag_name`. -/
def c1_db2 : DB := (mark_project_complete c1_db1 1 true "2024-01-01 11:00:00").2

/-- A project tagged "Work" with one note attached. -/
def c3_db2 : DB := (create_note c1_db1 1 "Draft wireframes" "2024-01-01 10:30:00").2

/-- Deleting that project. -/
def c3_res : Bool × DB := delete_project c3_db2 1

/-- A blank-after-trim note added to the project of `c1_db1`. -/
def c4_res : Note × DB := create_note c1_db1 1 "   " "2024-01-01 10:30:00"

/-- `create_tag` called with the already-present name "Work". -/
def c6_res : Tag × DB := create_tag dbW "Work" "#ffffff"

end ProjectTracker

namespace ProjectTracker

/-! ## Helper lemmas -/

/-- Searching an appended list when the first part has no hit. -/
theorem find?_append_of_none {α : Type} (p : α → Bool) {l₁ l₂ : List α}
    (h : l₁.find? p = none) : (l₁ ++ l₂).find? p = l₂.find? p := by
  rw [List.find?_append, h, Option.none_or]

/-- A row-wise `UPDATE ... WHERE` commutes with `SELECT ... WHERE fetchone`
when the update preserves the selection predicate. -/
theorem find?_map_ite {α : Type} (P : α → Prop) [DecidablePred P] (g : α → α)
    (hg : ∀ a, P a → P (g a)) :
    ∀ (l : List α) (q : α), l.find? (fun a => decide (P a)) = some q →
      (l.map (fun a => if P a then g a else a)).find? (fun a => decide (P a)) = some (g q) := by
  intro l
  induction l with
  | nil => intro q h; simp [List.find?] at h
  | cons a t ih =>
      intro q h
      simp only [List.map_cons]
      by_cases hp : P a
      · rw [List.find?_cons_of_pos _ (by simpa using hp)] at h
        injection h with h
        subst h
        rw [if_pos hp, List.find?_cons_of_pos _ (by simpa using hg a hp)]
      · rw [List.find?_cons_of_neg _ (by simpa using hp)] at h
        rw [if_neg hp, List.find?_cons_of_neg _ (by simpa using hp)]
        exact ih q h

/-- A `DELETE ... WHERE` that matches no row leaves the table unchanged. -/
theorem filter_not_of_find?_none {α : Type} (P : α → Prop) [DecidablePred P]
    (l : List α) (h : l.find? (fun a => decide (P a)) = none) :
    l.filter (fun a => decide (¬ P a)) = l := by
  apply List.filter_eq_self.2
  intro a ha
  simpa using List.find?_eq_none.1 h a ha

/-! ## C9 and C10: operations on absent rows -/

/-- C9: for a `note_id` not present in the store, `update_note` returns
`None` and `delete_note` returns `False`, and in both cases the entire
datastore is unchanged — no project's `updated_at` is touched. -/
theorem update_delete_note_absent (db : DB) (nid : Nat) (content now : String)
    (h : findNote db nid = none) :
    update_note db nid content now = (none, db) ∧ delete_note db nid now = (false, db) := by
  unfold update_note delete_note
  rw [h]
  exact ⟨rfl, rfl⟩

theorem update_delete_note_absent_witness :
    findNote dbEmpty 1 = none ∧
      (update_note dbEmpty 1 "x" "t" = (none, dbEmpty) ∧
       delete_note dbEmpty 1 "t" = (false, dbEmpty)) :=
  ⟨rfl, update_delete_note_absent dbEmpty 1 "x" "t" rfl⟩

/-- C10: for a project id not present in the store, `delete_project`
returns `True` (no failure indication) and leaves the entire datastore
unchanged. -/
theorem delete_project_absent (db : DB) (pid : Nat)
    (h : findProject db pid = none) :
    delete_project db pid = (true, db) := by
  unfold delete_project
  rw [h, filter_not_of_find?_none (fun p : Project => p.id = pid) db.projects h]

theorem delete_project_absent_witness :
    findProject dbEmpty 7 = none ∧ delete_project dbEmpty 7 = (true, dbEmpty) :=
  ⟨rfl, delete_project_absent dbEmpty 7 rfl⟩

end ProjectTracker

namespace ProjectTracker

/-! ## C1, C2, C3: defects evaluated at concrete inputs -/

/-- C1: the `Tag.count` invariant is broken by the code.  Starting from a
"Work" tag at count 0, `create_project` with `tag_name="Work"` raises the
count to 1; `mark_project_complete` — an update whose field set does not
contain `tag_name` — then decrements "Work" back to 0 even though the
project still references it: afterwards the stored count is 0 while
exactly one project has `tag_name = "Work"`. -/
theorem tag_count_invariant_broken_by_partial_update :
    tagCountByName c1_db2 "Work" = some 0 ∧
    referencingCount c1_db2 "Work" = 1 ∧
    (findProject c1_db2 1).map (fun p => p.tag_name) = some (Val.text "Work") := by
  decide

set_option maxRecDepth 100000 in
/-- C2: `register_user` stores the bare unsalted single-round SHA-256 hex
digest of the password: the stored credential for "Passw0rd" is exactly
`hash_password "Passw0rd"`, which is the SHA-256 digest (no iteration
count, no salt) and contains no `:` separator, so it is not of the
`hash:salt` form. -/
theorem register_stores_unsalted_sha256 :
    (register_user dbW "2024-01-01 09:00:00" "alice" "Passw0rd").1 =
      Except.ok ⟨1, "alice", hash_password "Passw0rd", "2024-01-01 09:00:00"⟩ ∧
    hash_password "Passw0rd" =
      "ab38eadaeb746599f2c1ee90f8267f31f467347462764a24d71ac1843ee77fe3" ∧
    ∀ c ∈ (hash_password "Passw0rd").data, c ≠ ':' := by
  have hd : hash_password "Passw0rd" =
      "ab38eadaeb746599f2c1ee90f8267f31f467347462764a24d71ac1843ee77fe3" := by decide
  refine ⟨rfl, hd, ?_⟩
  rw [hd]
  decide

/-- C3: `delete_project` removes the project row and decrements its tag,
but the attached note survives: no `DELETE FROM notes` is issued and the
declared `ON DELETE CASCADE` never fires because sqlite3 foreign-key
enforcement is off by default and the source never enables it. -/
theorem delete_project_leaves_orphan_notes :
    c3_res.1 = true ∧
    findProject c3_res.2 1 = none ∧
    c3_res.2.notes = [⟨1, 1, "Draft wireframes", "2024-01-01 10:30:00"⟩] ∧
    tagCountByName c3_res.2 "Work" = some 0 := by
  decide

/-! ## C4: `create_note` performs no blank-content validation -/

/-- C4 counterexample: calling `create_note` with content `"   "` — blank
after trimming — does not fail: it returns the note and inserts a note row
with that blank content. -/
theorem create_note_accepts_blank_content :
    (∀ c ∈ "   ".data, c = ' ') ∧
    c4_res.1.content = "   " ∧
    c4_res.2.notes = [⟨1, 1, "   ", "2024-01-01 10:30:00"⟩] := by
  decide

/-! ## C6: duplicate tag names are accepted -/

/-- C6 counterexample: with a tag named "Work" already present,
`create_tag("Work", ...)` does not fail with `DuplicateTag`: it returns a
new tag row and afterwards two rows named "Work" exist. -/
theorem create_tag_accepts_duplicate_name :
    c6_res.1.name = "Work" ∧ c6_res.1.count = 0 ∧
    (c6_res.2.tags.filter (fun t => decide (t.name = "Work"))).length = 2 := by
  decide

end ProjectTracker

namespace ProjectTracker

/-! ## C5: register followed by authenticate -/

/-- C5: for every (username, password) pair accepted by `register_user`, a
subsequent `authenticate_user` with the same credentials succeeds and
returns exactly the user record created by that registration. -/
theorem register_then_authenticate (db : DB) (now username password : String) (u : User)
    (h : (register_user db now username password).1 = Except.ok u) :
    authenticate_user (register_user db now username password).2 username password = some u := by
  unfold register_user at h ⊢
  by_cases h1 : username = "" ∨ password = ""
  · rw [if_pos h1] at h; simp at h
  rw [if_neg h1] at h ⊢
  by_cases h2 : password.length < 8
  · rw [if_pos h2] at h; simp at h
  rw [if_neg h2] at h ⊢
  by_cases h3 : ¬ (password.data.any (fun c => decide ('A' ≤ c ∧ c ≤ 'Z')) ∧
      password.data.any (fun c => decide ('a' ≤ c ∧ c ≤ 'z')) ∧
      password.data.any (fun c => decide ('0' ≤ c ∧ c ≤ '9')))
  · rw [if_pos h3] at h; simp at h
  rw [if_neg h3] at h ⊢
  cases hf : findUser db username with
  | some v => rw [hf] at h; simp at h
  | none =>
      rw [hf] at h
      have h' : (⟨db.nextUserId, username, hash_password password, now⟩ : User) = u :=
        Except.ok.inj h
      subst h'
      change (match (db.users ++
              [(⟨db.nextUserId, username, hash_password password, now⟩ : User)]).find?
            (fun w : User => decide (w.username = username)) with
          | some user => if verify_password user.password password then some user else none
          | none => none) =
        some ⟨db.nextUserId, username, hash_password password, now⟩
      have hf' : db.users.find? (fun w : User => decide (w.username = username)) = none := hf
      rw [find?_append_of_none _ hf']
      simp [List.find?, verify_password]

theorem register_then_authenticate_witness :
    (register_user dbEmpty "t0" "alice" "Passw0rd").1 =
      Except.ok ⟨1, "alice", hash_password "Passw0rd", "t0"⟩ ∧
    authenticate_user (register_user dbEmpty "t0" "alice" "Passw0rd").2 "alice" "Passw0rd" =
      some ⟨1, "alice", hash_password "Passw0rd", "t0"⟩ :=
  ⟨rfl, register_then_authenticate dbEmpty "t0" "alice" "Passw0rd" _ rfl⟩

end ProjectTracker

namespace ProjectTracker

/-- C4 (amended): `create_note` validates nothing and always succeeds: the
returned note carries the given content (blank or not) and creation time,
the note is appended to the notes table, and the parent project's
`updated_at` is set to the note's creation time `now` (hence ≥ the
previous value whenever the wall clock is monotone). -/
theorem create_note_touches_parent (db : DB) (pid : Nat) (content now : String) (p : Project)
    (h : findProject db pid = some p) :
    (create_note db pid content now).1.content = content ∧
    (create_note db pid content now).1.created_at = now ∧
    (create_note db pid content now).2.notes = db.notes ++ [(create_note db pid content now).1] ∧
    findProject (create_note db pid content now).2 pid =
      some { p with updated_at := Val.text now } :=
  ⟨rfl, rfl, rfl,
    find?_map_ite (fun q : Project => q.id = pid)
      (fun q => { q with updated_at := Val.text now })
      (fun _ ha => ha) db.projects p h⟩

theorem create_note_touches_parent_witness :
    findProject c1_db1 1 =
      some (⟨1, .text "Website redesign", .null, .text "Work", .text "#0ea5e9",
        .text "medium", .int 0, .text "2024-01-01 10:00:00", .text "2024-01-01 10:00:00"⟩ : Project) ∧
    ((create_note c1_db1 1 "Check hosting" "2024-01-02 09:00:00").1.content = "Check hosting" ∧
     (create_note c1_db1 1 "Check hosting" "2024-01-02 09:00:00").1.created_at = "2024-01-02 09:00:00" ∧
     (create_note c1_db1 1 "Check hosting" "2024-01-02 09:00:00").2.notes =
       c1_db1.notes ++ [(create_note c1_db1 1 "Check hosting" "2024-01-02 09:00:00").1] ∧
     findProject (create_note c1_db1 1 "Check hosting" "2024-01-02 09:00:00").2 1 =
       some (⟨1, .text "Website redesign", .null, .text "Work", .text "#0ea5e9",
         .text "medium", .int 0, .text "2024-01-01 10:00:00", .text "2024-01-02 09:00:00"⟩ : Project)) :=
  ⟨by decide, create_note_touches_parent c1_db1 1 "Check hosting" "2024-01-02 09:00:00"
    ⟨1, .text "Website redesign", .null, .text "Work", .text "#0ea5e9",
      .text "medium", .int 0, .text "2024-01-01 10:00:00", .text "2024-01-01 10:00:00"⟩
    (by decide)⟩

/-- C6 (amended): `create_tag` never fails on a duplicate name — the
schema has no uniqueness constraint on `tags.name` and the function does
no duplicate check.  Called with a name an existing tag already bears, it
appends a second row with that name (and count 0), so at least two rows
named `name` exist afterwards. -/
theorem create_tag_ignores_duplicates (db : DB) (name color : String)
    (h : ∃ t ∈ db.tags, t.name = name) :
    (create_tag db name color).1.name = name ∧
    (create_tag db name color).2.tags = db.tags ++ [(create_tag db name color).1] ∧
    2 ≤ ((create_tag db name color).2.tags.filter (fun t => decide (t.name = name))).length := by
  obtain ⟨t, ht, hname⟩ := h
  refine ⟨rfl, rfl, ?_⟩
  show 2 ≤ ((db.tags ++ [(⟨db.nextTagId, name, color, 0⟩ : Tag)]).filter
      (fun s => decide (s.name = name))).length
  rw [List.filter_append, List.length_append]
  have h1 : 0 < (db.tags.filter (fun s => decide (s.name = name))).length :=
    List.length_pos_of_mem (List.mem_filter.2 ⟨ht, by simp [hname]⟩)
  have h2 : (([(⟨db.nextTagId, name, color, 0⟩ : Tag)]).filter
      (fun s => decide (s.name = name))).length = 1 := by simp
  omega

theorem create_tag_ignores_duplicates_witness :
    (∃ t ∈ dbW.tags, t.name = "Work") ∧
    ((create_tag dbW "Work" "#ffffff").1.name = "Work" ∧
     (create_tag dbW "Work" "#ffffff").2.tags = dbW.tags ++ [(create_tag dbW "Work" "#ffffff").1] ∧
     2 ≤ ((create_tag dbW "Work" "#ffffff").2.tags.filter
        (fun t => decide (t.name = "Work"))).length) :=
  ⟨by decide, create_tag_ignores_duplicates dbW "Work" "#ffffff" (by decide)⟩

end ProjectTracker

namespace ProjectTracker

/-! ## C7: tag-count adjustment on retagging, floored at zero -/

/-- `UPDATE tags SET count = MAX(0, count - 1) WHERE name = A`, written
pointwise on the tag rows. -/
theorem decTags_eq_map (l : List Tag) (A : String) :
    decTags l (Val.text A) =
      l.map (fun t => if t.name = A then { t with count := max 0 (t.count - 1) } else t) := by
  unfold decTags
  apply List.map_congr_left
  intro t _
  by_cases ha : t.name = A <;> simp [ha]

/-- Decrement of `A` followed by increment of `B` (`A ≠ B`) acts pointwise
on the tag rows. -/
theorem inc_dec_tags_eq_map (l : List Tag) (A B : String) (hAB : A ≠ B) :
    incTags (decTags l (Val.text A)) (Val.text B) =
      l.map (fun t =>
        if t.name = A then { t with count := max 0 (t.count - 1) }
        else if t.name = B then { t with count := t.count + 1 } else t) := by
  rw [decTags_eq_map]
  unfold incTags
  rw [List.map_map]
  apply List.map_congr_left
  intro t _
  simp only [Function.comp_apply]
  by_cases ha : t.name = A
  · rw [if_pos ha, if_pos ha,
      if_neg (show ¬ Val.text ({ t with count := max 0 (t.count - 1) } : Tag).name = Val.text B by
        simp [ha, hAB])]
  · rw [if_neg ha, if_neg ha]
    by_cases hb : t.name = B
    · rw [if_pos (show Val.text t.name = Val.text B by simp [hb]), if_pos hb]
    · rw [if_neg (show ¬ Val.text t.name = Val.text B by simp [hb]), if_neg hb]

/-- C7: updating a project whose tag is `A` to tag `B` applies
`MAX(0, count - 1)` to every tag row named `A` and `count + 1` to every
row named `B`, so `A`'s count drops by 1 when positive and stays at 0
otherwise, and no `A`-row ends up negative; the decrement done by
`delete_project` carries the same floor. -/
theorem retag_floors_counts (db : DB) (pid : Nat) (p : Project) (A B : String)
    (kwargs : List (String × Val)) (now : String)
    (h : findProject db pid = some p) (hp : p.tag_name = Val.text A)
    (hA : A ≠ "") (hB : B ≠ "") (hAB : A ≠ B)
    (hk : pyGet kwargs "tag_name" = Val.text B) :
    ((update_project db pid kwargs now).2.tags =
        db.tags.map (fun t =>
          if t.name = A then { t with count := max 0 (t.count - 1) }
          else if t.name = B then { t with count := t.count + 1 } else t) ∧
      ∀ t ∈ (update_project db pid kwargs now).2.tags, t.name = A → 0 ≤ t.count) ∧
    ((delete_project db pid).2.tags =
        db.tags.map (fun t =>
          if t.name = A then { t with count := max 0 (t.count - 1) } else t) ∧
      ∀ t ∈ (delete_project db pid).2.tags, t.name = A → 0 ≤ t.count) := by
  have htags1 : (update_project db pid kwargs now).2.tags =
      incTags (decTags db.tags (Val.text A)) (Val.text B) := by
    simp only [update_project, h, hk, hp]
    simp [truthy, hA, hB, hAB]
  have htags2 : (delete_project db pid).2.tags = decTags db.tags (Val.text A) := by
    simp only [delete_project, h, hp]
    simp [truthy, hA]
  refine ⟨⟨?_, ?_⟩, ?_, ?_⟩
  · rw [htags1, inc_dec_tags_eq_map db.tags A B hAB]
  · intro t ht hta
    rw [htags1, inc_dec_tags_eq_map db.tags A B hAB] at ht
    obtain ⟨s, hs, rfl⟩ := List.mem_map.1 ht
    by_cases h1 : s.name = A
    · simp only [if_pos h1]
      exact le_max_left 0 _
    · by_cases h2 : s.name = B
      · simp [h1, h2, hAB.symm] at hta
      · simp [h1, h2] at hta
  · rw [htags2, decTags_eq_map db.tags A]
  · intro t ht hta
    rw [htags2, decTags_eq_map db.tags A] at ht
    obtain ⟨s, hs, rfl⟩ := List.mem_map.1 ht
    by_cases h1 : s.name = A
    · simp only [if_pos h1]
      exact le_max_left 0 _
    · simp [h1] at hta

theorem retag_floors_counts_witness :
    findProject c1_db1 1 =
      some (⟨1, .text "Website redesign", .null, .text "Work", .text "#0ea5e9",
        .text "medium", .int 0, .text "2024-01-01 10:00:00", .text "2024-01-01 10:00:00"⟩ : Project) ∧
    (((update_project c1_db1 1 [("tag_name", Val.text "Personal")] "t2").2.tags =
        c1_db1.tags.map (fun t =>
          if t.name = "Work" then { t with count := max 0 (t.count - 1) }
          else if t.name = "Personal" then { t with count := t.count + 1 } else t) ∧
      ∀ t ∈ (update_project c1_db1 1 [("tag_name", Val.text "Personal")] "t2").2.tags,
        t.name = "Work" → 0 ≤ t.count) ∧
     ((delete_project c1_db1 1).2.tags =
        c1_db1.tags.map (fun t =>
          if t.name = "Work" then { t with count := max 0 (t.count - 1) } else t) ∧
      ∀ t ∈ (delete_project c1_db1 1).2.tags, t.name = "Work" → 0 ≤ t.count)) :=
  ⟨by decide,
   retag_floors_counts c1_db1 1
     ⟨1, .text "Website redesign", .null, .text "Work", .text "#0ea5e9",
       .text "medium", .int 0, .text "2024-01-01 10:00:00", .text "2024-01-01 10:00:00"⟩
     "Work" "Personal" [("tag_name", Val.text "Personal")] "t2"
     (by decide) (by decide) (by decide) (by decide) (by decide) (by decide)⟩

end ProjectTracker

namespace ProjectTracker

/-! ## C8: `update_project` is a frame update on the recognized fields -/

/-- `dict.get` on a key that is not among the stored keys. -/
theorem lookup_none_of_not_mem {β : Type} (l : List (String × β)) (k : String)
    (h : k ∉ l.map Prod.fst) : l.lookup k = none := by
  induction l with
  | nil => rfl
  | cons a t ih =>
      obtain ⟨k1, v1⟩ := a
      simp only [List.map_cons, List.mem_cons, not_or] at h
      obtain ⟨h1, h2⟩ := h
      have hb : (k == k1) = false := by simpa using h1
      have ht := ih h2
      simp [List.lookup, hb, ht]

/-- `applyKwargs` never touches `id`, `created_at` or `updated_at`. -/
theorem applyKwargs_const : ∀ (kwargs : List (String × Val)) (p : Project),
    (applyKwargs p kwargs).id = p.id ∧
    (applyKwargs p kwargs).created_at = p.created_at ∧
    (applyKwargs p kwargs).updated_at = p.updated_at := by
  intro kwargs
  induction kwargs with
  | nil => intro p; exact ⟨rfl, rfl, rfl⟩
  | cons kv rest ih =>
      intro p
      obtain ⟨k, v⟩ := kv
      have hstep : ∀ q : Project, (setField q k v).id = q.id ∧
          (setField q k v).created_at = q.created_at ∧
          (setField q k v).updated_at = q.updated_at := by
        intro q
        unfold setField
        repeat' split
        all_goals exact ⟨rfl, rfl, rfl⟩
      show (applyKwargs (if k ∈ recognizedKeys then setField p k v else p) rest).id = p.id ∧
    (applyKwargs (if k ∈ recognizedKeys then setField p k v else p) rest).created_at = p.created_at ∧
    (applyKwargs (if k ∈ recognizedKeys then setField p k v else p) rest).updated_at = p.updated_at
      by_cases hc : k ∈ recognizedKeys
      · rw [if_pos hc]
        obtain ⟨i1, i2, i3⟩ := ih (setField p k v)
        obtain ⟨s1, s2, s3⟩ := hstep p
        exact ⟨i1.trans s1, i2.trans s2, i3.trans s3⟩
      · rw [if_neg hc]
        exact ih p

end ProjectTracker

namespace ProjectTracker

/-- With pairwise-distinct keys (Python `**kwargs` guarantees this), the
applied `SET` clause sets each recognized column to its passed value and
leaves unpassed columns unchanged. -/
theorem applyKwargs_lookup : ∀ (kwargs : List (String × Val)),
    (kwargs.map Prod.fst).Nodup → ∀ p : Project,
    (applyKwargs p kwargs).title = (kwargs.lookup "title").getD p.title ∧
    (applyKwargs p kwargs).description = (kwargs.lookup "description").getD p.description ∧
    (applyKwargs p kwargs).tag_name = (kwargs.lookup "tag_name").getD p.tag_name ∧
    (applyKwargs p kwargs).tag_color = (kwargs.lookup "tag_color").getD p.tag_color ∧
    (applyKwargs p kwargs).priority = (kwargs.lookup "priority").getD p.priority ∧
    (applyKwargs p kwargs).completed = (kwargs.lookup "completed").getD p.completed := by
  intro kwargs
  induction kwargs with
  | nil => intro _ p; exact ⟨rfl, rfl, rfl, rfl, rfl, rfl⟩
  | cons kv rest ih =>
      intro hnd p
      obtain ⟨k, v⟩ := kv
      simp only [List.map_cons, List.nodup_cons] at hnd
      obtain ⟨hk, hrest⟩ := hnd
      by_cases h1 : k = "title"
      · subst h1
        obtain ⟨i1, i2, i3, i4, i5, i6⟩ := ih hrest { p with title := v }
        have hn := lookup_none_of_not_mem rest "title" hk
        exact ⟨by simp [List.lookup, applyKwargs, setField, recognizedKeys, i1, hn],
               by simp [List.lookup, applyKwargs, setField, recognizedKeys, i2],
               by simp [List.lookup, applyKwargs, setField, recognizedKeys, i3],
               by simp [List.lookup, applyKwargs, setField, recognizedKeys, i4],
               by simp [List.lookup, applyKwargs, setField, recognizedKeys, i5],
               by simp [List.lookup, applyKwargs, setField, recognizedKeys, i6]⟩
      by_cases h2 : k = "description"
      · subst h2
        obtain ⟨i1, i2, i3, i4, i5, i6⟩ := ih hrest { p with description := v }
        have hn := lookup_none_of_not_mem rest "description" hk
        exact ⟨by simp [List.lookup, applyKwargs, setField, recognizedKeys, i1],
               by simp [List.lookup, applyKwargs, setField, recognizedKeys, i2, hn],
               by simp [List.lookup, applyKwargs, setField, recognizedKeys, i3],
               by simp [List.lookup, applyKwargs, setField, recognizedKeys, i4],
               by simp [List.lookup, applyKwargs, setField, recognizedKeys, i5],
               by simp [List.lookup, applyKwargs, setField, recognizedKeys, i6]⟩
      by_cases h3 : k = "tag_name"
      · subst h3
        obtain ⟨i1, i2, i3, i4, i5, i6⟩ := ih hrest { p with tag_name := v }
        have hn := lookup_none_of_not_mem rest "tag_name" hk
        exact ⟨by simp [List.lookup, applyKwargs, setField, recognizedKeys, i1],
               by simp [List.lookup, applyKwargs, setField, recognizedKeys, i2],
               by simp [List.lookup, applyKwargs, setField, recognizedKeys, i3, hn],
               by simp [List.lookup, applyKwargs, setField, recognizedKeys, i4],
               by simp [List.lookup, applyKwargs, setField, recognizedKeys, i5],
               by simp [List.lookup, applyKwargs, setField, recognizedKeys, i6]⟩
      by_cases h4 : k = "tag_color"
      · subst h4
        obtain ⟨i1, i2, i3, i4, i5, i6⟩ := ih hrest { p with tag_color := v }
        have hn := lookup_none_of_not_mem rest "tag_color" hk
        exact ⟨by simp [List.lookup, applyKwargs, setField, recognizedKeys, i1],
               by simp [List.lookup, applyKwargs, setField, recognizedKeys, i2],
               by simp [List.lookup, applyKwargs, setField, recognizedKeys, i3],
               by simp [List.lookup, applyKwargs, setField, recognizedKeys, i4, hn],
               by simp [List.lookup, applyKwargs, setField, recognizedKeys, i5],
               by simp [List.lookup, applyKwargs, setField, recognizedKeys, i6]⟩
      by_cases h5 : k = "priority"
      · subst h5
        obtain ⟨i1, i2, i3, i4, i5, i6⟩ := ih hrest { p with priority := v }
        have hn := lookup_none_of_not_mem rest "priority" hk
        exact ⟨by simp [List.lookup, applyKwargs, setField, recognizedKeys, i1],
               by simp [List.lookup, applyKwargs, setField, recognizedKeys, i2],
               by simp [List.lookup, applyKwargs, setField, recognizedKeys, i3],
               by simp [List.lookup, applyKwargs, setField, recognizedKeys, i4],
               by simp [List.lookup, applyKwargs, setField, recognizedKeys, i5, hn],
               by simp [List.lookup, applyKwargs, setField, recognizedKeys, i6]⟩
      by_cases h6 : k = "completed"
      · subst h6
        obtain ⟨i1, i2, i3, i4, i5, i6⟩ := ih hrest { p with completed := v }
        have hn := lookup_none_of_not_mem rest "completed" hk
        exact ⟨by simp [List.lookup, applyKwargs, setField, recognizedKeys, i1],
               by simp [List.lookup, applyKwargs, setField, recognizedKeys, i2],
               by simp [List.lookup, applyKwargs, setField, recognizedKeys, i3],
               by simp [List.lookup, applyKwargs, setField, recognizedKeys, i4],
               by simp [List.lookup, applyKwargs, setField, recognizedKeys, i5],
               by simp [List.lookup, applyKwargs, setField, recognizedKeys, i6, hn]⟩
      · have hc : ¬ k ∈ recognizedKeys := by
          simp [recognizedKeys, h1, h2, h3, h4, h5, h6]
        obtain ⟨i1, i2, i3, i4, i5, i6⟩ := ih hrest p
        have e1 : ("title" == k) = false := by simpa using fun e => h1 e.symm
        have e2 : ("description" == k) = false := by simpa using fun e => h2 e.symm
        have e3 : ("tag_name" == k) = false := by simpa using fun e => h3 e.symm
        have e4 : ("tag_color" == k) = false := by simpa using fun e => h4 e.symm
        have e5 : ("priority" == k) = false := by simpa using fun e => h5 e.symm
        have e6 : ("completed" == k) = false := by simpa using fun e => h6 e.symm
        exact ⟨by simp [List.lookup, applyKwargs, hc, i1, e1],
               by simp [List.lookup, applyKwargs, hc, i2, e2],
               by simp [List.lookup, applyKwargs, hc, i3, e3],
               by simp [List.lookup, applyKwargs, hc, i4, e4],
               by simp [List.lookup, applyKwargs, hc, i5, e5],
               by simp [List.lookup, applyKwargs, hc, i6, e6]⟩

end ProjectTracker

namespace ProjectTracker

/-- C8: on an existing project, `update_project` changes exactly the passed
keys among {title, description, tag_name, tag_color, priority, completed}
plus `updated_at`: each passed recognized key takes its passed value,
every unpassed column (including `id` and `created_at`) keeps its value,
and keys outside the recognized set are ignored without error — the call
still succeeds and returns the updated row. -/
theorem update_project_frame (db : DB) (pid : Nat) (kwargs : List (String × Val))
    (now : String) (p : Project)
    (h : findProject db pid = some p) (hnd : (kwargs.map Prod.fst).Nodup) :
    ∃ p' : Project,
      (update_project db pid kwargs now).1 = some p' ∧
      findProject (update_project db pid kwargs now).2 pid = some p' ∧
      p'.id = p.id ∧
      p'.created_at = p.created_at ∧
      p'.updated_at = Val.text now ∧
      p'.title = (kwargs.lookup "title").getD p.title ∧
      p'.description = (kwargs.lookup "description").getD p.description ∧
      p'.tag_name = (kwargs.lookup "tag_name").getD p.tag_name ∧
      p'.tag_color = (kwargs.lookup "tag_color").getD p.tag_color ∧
      p'.priority = (kwargs.lookup "priority").getD p.priority ∧
      p'.completed = (kwargs.lookup "completed").getD p.completed := by
  have hfind := find?_map_ite (fun q : Project => q.id = pid)
      (fun q => { applyKwargs q kwargs with updated_at := Val.text now })
      (fun a ha => (applyKwargs_const kwargs a).1.trans ha)
      db.projects p h
  obtain ⟨c1, c2, c3⟩ := applyKwargs_const kwargs p
  obtain ⟨f1, f2, f3, f4, f5, f6⟩ := applyKwargs_lookup kwargs hnd p
  exact ⟨{ applyKwargs p kwargs with updated_at := Val.text now },
    hfind, hfind, c1, c2, rfl, f1, f2, f3, f4, f5, f6⟩

theorem update_project_frame_witness :
    findProject c1_db1 1 =
      some (⟨1, .text "Website redesign", .null, .text "Work", .text "#0ea5e9",
        .text "medium", .int 0, .text "2024-01-01 10:00:00", .text "2024-01-01 10:00:00"⟩ : Project) ∧
    (([("title", Val.text "Rebrand"), ("bogus", Val.int 7)].map
        (Prod.fst : String × Val → String)).Nodup) ∧
    (∃ p' : Project,
      (update_project c1_db1 1 [("title", Val.text "Rebrand"), ("bogus", Val.int 7)] "t9").1 =
        some p' ∧
      findProject
        (update_project c1_db1 1 [("title", Val.text "Rebrand"), ("bogus", Val.int 7)] "t9").2 1 =
        some p' ∧
      p'.id = 1 ∧
      p'.created_at = Val.text "2024-01-01 10:00:00" ∧
      p'.updated_at = Val.text "t9" ∧
      p'.title = ([("title", Val.text "Rebrand"), ("bogus", Val.int 7)].lookup "title").getD
        (Val.text "Website redesign") ∧
      p'.description = ([("title", Val.text "Rebrand"), ("bogus", Val.int 7)].lookup
        "description").getD Val.null ∧
      p'.tag_name = ([("title", Val.text "Rebrand"), ("bogus", Val.int 7)].lookup
        "tag_name").getD (Val.text "Work") ∧
      p'.tag_color = ([("title", Val.text "Rebrand"), ("bogus", Val.int 7)].lookup
        "tag_color").getD (Val.text "#0ea5e9") ∧
      p'.priority = ([("title", Val.text "Rebrand"), ("bogus", Val.int 7)].lookup
        "priority").getD (Val.text "medium") ∧
      p'.completed = ([("title", Val.text "Rebrand"), ("bogus", Val.int 7)].lookup
        "completed").getD (Val.int 0)) :=
  ⟨by decide, by decide,
   update_project_frame c1_db1 1 [("title", Val.text "Rebrand"), ("bogus", Val.int 7)] "t9"
     ⟨1, .text "Website redesign", .null, .text "Work", .text "#0ea5e9",
       .text "medium", .int 0, .text "2024-01-01 10:00:00", .text "2024-01-01 10:00:00"⟩
     (by decide) (by decide)⟩

end ProjectTracker
